import Mathlib

/-
  Verification development for a V4L2 single-frame camera grabber
  (camera_driver.c).  The C program opens /dev/video0, negotiates a
  320x240 YUYV422 format, memory-maps a pool of capture buffers,
  waits with a 2 s timeout for one filled buffer, converts it to
  RGB24 and writes one PPM file.  The definitions below are a shallow
  embedding of the relevant C functions; machine integers are modelled
  as Nat/Int with explicit wrap-around where the C width matters.
-/

/-! ## Colorspace converter (camera_driver.c, yuv2rgb, lines 186-216) -/

/-- `yuv2rgb` from the source, lines 186-216.  `int` arithmetic never
overflows 32 bits for any inputs reachable here, so plain `Int` is used;
the C `>> 8` on `int` is an arithmetic shift, `Int.shiftRight`. -/
def yuv2rgb (y u v : Int) : Int × Int × Int :=
  let c := y - 16
  let d := u - 128
  let e := v - 128
  let r1 := (298 * c + 409 * e + 128) >>> 8
  let g1 := (298 * c - 100 * d - 208 * e + 128) >>> 8
  let b1 := (298 * c + 516 * d + 128) >>> 8
  let r2 := if r1 > 255 then 255 else r1
  let g2 := if g1 > 255 then 255 else g1
  let b2 := if b1 > 255 then 255 else b1
  let r3 := if r2 < 0 then 0 else r2
  let g3 := if g2 < 0 then 0 else g2
  let b3 := if b2 < 0 then 0 else b2
  (r3, g3, b3)

/-- Clamp into [0,255], following the spec's words `clamp_0_255`. -/
def clamp_0_255 (x : Int) : Int := min 255 (max 0 x)

/-- The three bytes one `yuv2rgb` call stores through its `r, g, b`
out-pointers (the stored values lie in [0,255], so the `unsigned char`
conversion is exact). -/
def pixBytes (y u v : Nat) : List Nat :=
  [(yuv2rgb y u v).1.toNat, (yuv2rgb y u v).2.1.toNat, (yuv2rgb y u v).2.2.toNat]

/-- The YUYV conversion loop of `process_image` (lines 249-257):
`for (i = 0, newi = 0; i < size; i += 4, newi += 6)` reading the quad
`pptr[i..i+3]` as `(Y0, U, Y1, V)` and writing two RGB pixels at
`bigbuffer[newi..newi+5]`.  The result list is the sequence of bytes
written to `bigbuffer` starting at index 0.  (A trailing fragment of
1-3 bytes would make the C loop read past the frame; frames here are
multiples of 4 bytes and that arm is cut off at the list end.) -/
def yuyvLoop : List Nat → List Nat
  | y0 :: u :: y1 :: v :: rest =>
      pixBytes y0 u v ++ pixBytes y1 u v ++ yuyvLoop rest
  | _ => []

theorem pixBytes_length (y u v : Nat) : (pixBytes y u v).length = 3 := rfl

theorem yuyvLoop_length : ∀ l : List Nat, (yuyvLoop l).length = 6 * (l.length / 4)
  | [] => rfl
  | [_] => by simp [yuyvLoop]
  | [_, _] => by simp [yuyvLoop]
  | [_, _, _] => by simp [yuyvLoop]
  | y0 :: u :: y1 :: v :: rest => by
      have ih := yuyvLoop_length rest
      simp only [yuyvLoop, List.length_append, pixBytes_length, List.length_cons, ih]
      omega

/-- Collapsing the source's two-sided clipping chain to a single clamp. -/
theorem clip_eq_clamp (t : Int) :
    (if (if t > 255 then 255 else t) < 0 then 0 else (if t > 255 then 255 else t)) =
      clamp_0_255 t := by
  simp only [clamp_0_255, min_def, max_def]
  split_ifs <;> omega

/-- **C1.** Each YUYV422 quadruple `(Y0, U, Y1, V)` yields exactly two
3-byte RGB24 pixels, the first from `(Y0,U,V)` and the second from
`(Y1,U,V)` with the same shared chroma pair, and each `yuv2rgb` channel
equals the spec's integer formula `c=Y-16, d=U-128, e=V-128,
R=(298c+409e+128)>>8, G=(298c-100d-208e+128)>>8, B=(298c+516d+128)>>8`
clamped into [0,255]. -/
theorem yuyv_pair_conversion :
    ∀ (y0 u y1 v : Nat) (rest : List Nat),
      yuyvLoop (y0 :: u :: y1 :: v :: rest) =
        pixBytes y0 u v ++ pixBytes y1 u v ++ yuyvLoop rest ∧
      (pixBytes y0 u v).length = 3 ∧ (pixBytes y1 u v).length = 3 ∧
      ∀ y uu vv : Int,
        yuv2rgb y uu vv =
          (clamp_0_255 ((298 * (y - 16) + 409 * (vv - 128) + 128) >>> 8),
           clamp_0_255 ((298 * (y - 16) - 100 * (uu - 128) - 208 * (vv - 128) + 128) >>> 8),
           clamp_0_255 ((298 * (y - 16) + 516 * (uu - 128) + 128) >>> 8)) := by
  intro y0 u y1 v rest
  refine ⟨rfl, rfl, rfl, ?_⟩
  intro y uu vv
  show (_, _, _) = (_, _, _)
  rw [← clip_eq_clamp ((298 * (y - 16) + 409 * (vv - 128) + 128) >>> 8),
      ← clip_eq_clamp ((298 * (y - 16) - 100 * (uu - 128) - 208 * (vv - 128) + 128) >>> 8),
      ← clip_eq_clamp ((298 * (y - 16) + 516 * (uu - 128) + 128) >>> 8)]

/-! ## PPM file formatting (camera_driver.c, dump_ppm, lines 136-167)

`dump_ppm` patches two fixed template strings in place with `snprintf`
(`"%08d"` for the frame tag, `"%010d"` for the timestamp fields) and
writes header then pixel bytes.  The string surgery on lines 144-151
produces `"P6\n#" ++ <10 digits> ++ " sec " ++ <10 digits> ++
" msec \n320 240\n255\n"` and `"frames/test" ++ <8 digits> ++ ".ppm"`. -/

/-- Decimal digits of `n`, most significant first, with recursion fuel.
Models the digit output of `printf "%d"`; exact whenever `n < 10^fuel`,
which also matches the `snprintf` size bound that truncates the patched
field to `fuel` characters. -/
def decDigits : Nat → Nat → List Char
  | 0, _ => []
  | fuel + 1, n =>
      if n < 10 then [Nat.digitChar n]
      else decDigits fuel (n / 10) ++ [Nat.digitChar (n % 10)]

theorem decDigits_length_le : ∀ fuel n, (decDigits fuel n).length ≤ fuel
  | 0, _ => Nat.le_refl 0
  | fuel + 1, n => by
      simp only [decDigits]
      split
      · simp
      · have ih := decDigits_length_le fuel (n / 10)
        simp only [List.length_append, List.length_cons, List.length_nil]
        omega

/-- Zero-padded fixed-width decimal field, as produced by
`snprintf(dst, w+1, "%0wd", n)` for `n < 10^w`. -/
def pad0 (w n : Nat) : List Char :=
  List.replicate (w - (decDigits w n).length) '0' ++ decDigits w n

theorem pad0_length (w n : Nat) : (pad0 w n).length = w := by
  have h := decDigits_length_le w n
  simp only [pad0, List.length_append, List.length_replicate]
  omega

/-- Output filename built by `dump_ppm` lines 144-146:
`frames/test<8-digit tag>.ppm`. -/
def ppm_dumpname (tag : Nat) : String :=
  String.mk ("frames/test".toList ++ pad0 8 tag ++ ".ppm".toList)

/-- Header text built by `dump_ppm` lines 148-151 (`msec` is
`tv_nsec / 1000000`): `P6\n#<10-digit sec> sec <10-digit msec> msec
\n320 240\n255\n`.  Valid for `sec, msec < 10^10`, which the `(int)`
casts in the source guarantee. -/
def ppm_header (sec msec : Nat) : List Char :=
  "P6\n#".toList ++ pad0 10 sec ++ " sec ".toList ++ pad0 10 msec ++
    " msec \n".toList ++ "320 240\n255\n".toList

/-- ASCII bytes of a character list (the header is plain ASCII). -/
def strBytes (s : List Char) : List Nat := s.map Char.toNat

/-! ## Capture session state (globals of camera_driver.c) -/

/-- `fmt.fmt.pix.pixelformat` as far as `process_image` inspects it:
either `V4L2_PIX_FMT_YUYV` or anything else (line 246). -/
inductive PixFmt
  | yuyv
  | other
deriving DecidableEq

/-- One file created under `frames/` by `dump_ppm`. -/
structure OutFile where
  name : String
  content : List Nat
deriving DecidableEq

/-- The program state the capture path touches: the global format
(`fmt`), the global frame counter (`framecnt`, line 218), the files
written so far, the signal flag (`is_capture`, line 47) and the
stderr diagnostics. -/
structure CapState where
  pixfmt : PixFmt
  framecnt : Nat
  files : List OutFile
  is_capture : Bool
  diag : List String
deriving DecidableEq

/-- `signalHandler` (lines 51-72): SIGINT and SIGTERM both clear the
global `is_capture` flag. -/
inductive Signal
  | sigint
  | sigterm

def signalHandler (sig : Signal) (st : CapState) : CapState :=
  match sig with
  | Signal.sigint => { st with is_capture := false }
  | Signal.sigterm => { st with is_capture := false }

/-- `process_image` (lines 233-268): take the frame timestamp, increment
`framecnt`, then — only if the format is YUYV — run the conversion loop
and `dump_ppm(bigbuffer, size*6/4, framecnt, &frame_time)`; for any
other format print an error and produce no file.  The dumped pixel
bytes are the first `size*6/4` bytes of `bigbuffer`, i.e. of the
conversion loop's output. -/
def process_image (bytes : List Nat) (sec nsec : Nat) (st : CapState) : CapState :=
  let cnt := st.framecnt + 1
  if st.pixfmt = PixFmt.yuyv then
    { st with
      framecnt := cnt,
      files := st.files ++
        [{ name := ppm_dumpname cnt,
           content := strBytes (ppm_header sec (nsec / 1000000)) ++
             (yuyvLoop bytes).take (bytes.length * 6 / 4) }] }
  else
    { st with framecnt := cnt }

/-- What `VIDIOC_DQBUF` yields when `select` reported readiness:
`EAGAIN`, `EIO`, or a filled buffer (its bytes and the realtime clock
reading `process_image` will take). -/
inductive ReadResult
  | eagain
  | eio
  | frame (bytes : List Nat) (sec nsec : Nat)
deriving DecidableEq

/-- One iteration's worth of device behaviour in `capture_frame`'s
`for (;;)` loop: `select` is interrupted (EINTR), `select` times out,
or the descriptor is ready and `read_frame` runs. -/
inductive DevEvent
  | selectIntr
  | selectTimeout
  | ready (r : ReadResult)
deriving DecidableEq

/-- How a run of `capture_frame` ends: `exit(EXIT_FAILURE)` on the
2-second timeout, `break` after one successfully processed frame, or
still blocked in the loop (the event trace ran out). -/
inductive Outcome
  | timedOut
  | captured
  | blocked
deriving DecidableEq

/-- `read_frame` (lines 279-322): a `VIDIOC_DQBUF` failure with
`EAGAIN` or `EIO` returns 0 ("no frame this iteration"); a dequeued
buffer is handed to `process_image` and re-queued, returning 1. -/
def read_frame (r : ReadResult) (st : CapState) : Nat × CapState :=
  match r with
  | ReadResult.eagain => (0, st)
  | ReadResult.eio => (0, st)
  | ReadResult.frame bytes sec nsec => (1, process_image bytes sec nsec st)

/-- `capture_frame` (lines 335-385): loop forever; on `select` = -1
with `EINTR` continue; on `select` = 0 print `select timeout` to
stderr and `exit(EXIT_FAILURE)`; on readiness run `read_frame` and
`break` out of the loop iff it returns nonzero.  The loop never reads
`is_capture`. -/
def capture_frame : List DevEvent → CapState → Outcome × CapState
  | [], st => (Outcome.blocked, st)
  | DevEvent.selectIntr :: rest, st => capture_frame rest st
  | DevEvent.selectTimeout :: _, st =>
      (Outcome.timedOut, { st with diag := st.diag ++ ["select timeout"] })
  | DevEvent.ready r :: rest, st =>
      let res := read_frame r st
      if res.1 = 0 then capture_frame rest res.2
      else (Outcome.captured, res.2)

/-- Global state at entry to the capture loop: `framecnt = 0`
(line 218), `is_capture = true` (line 47), and the format forced to
320x240 YUYV by `init_device` (lines 646-659). -/
def initial_state : CapState :=
  { pixfmt := PixFmt.yuyv, framecnt := 0, files := [], is_capture := true, diag := [] }

/-- `camera_capture` (lines 747-768): single `capture_frame()` call
(the `while (is_capture)` loop is commented out); if it returns
normally — i.e. one frame was captured — `is_capture` is set to false
and teardown runs. -/
def camera_capture (evs : List DevEvent) : Outcome × CapState :=
  let r := capture_frame evs initial_state
  if r.1 = Outcome.captured then (r.1, { r.2 with is_capture := false }) else r

/-- Process exit status by outcome: `exit(EXIT_FAILURE)` on timeout,
`return 0` from `camera_capture` after a captured frame, none while
still blocked in the loop. -/
def exit_code : Outcome → Option Nat
  | Outcome.timedOut => some 1
  | Outcome.captured => some 0
  | Outcome.blocked => none

/-! ## Format negotiation clamp (camera_driver.c, init_device, lines 671-677)

```
min = fmt.fmt.pix.width * 2;
if (fmt.fmt.pix.bytesperline < min) fmt.fmt.pix.bytesperline = min;
min = fmt.fmt.pix.bytesperline * fmt.fmt.pix.height;
if (fmt.fmt.pix.sizeimage < min) fmt.fmt.pix.sizeimage = min;
```
All four fields and `min` are 32-bit unsigned, so the products wrap
modulo 2^32. -/

/-- The "buggy driver paranoia" clamp; returns the final
`(bytesperline, sizeimage)` pair. -/
def init_device_clamp (width height bytesperline sizeimage : Nat) : Nat × Nat :=
  let min1 := width * 2 % 2 ^ 32
  let bpl := if bytesperline < min1 then min1 else bytesperline
  let min2 := bpl * height % 2 ^ 32
  let sz := if sizeimage < min2 then min2 else sizeimage
  (bpl, sz)

/-- **C3 counterexample.** With the forced 320x240 format, a device
reporting `bytesperline = 2^31` and `sizeimage = 0` defeats the clamp:
`2^31 * 240` wraps to 0 mod 2^32, so `sizeimage` stays 0 even though
`bytesperline * height` is huge — the claimed invariant
`total_image_bytes ≥ bytes_per_line * height` fails. -/
theorem init_device_clamp_overflow_cx :
    (init_device_clamp 320 240 (2 ^ 31) 0).2 <
      (init_device_clamp 320 240 (2 ^ 31) 0).1 * 240 ∧
    (2 ^ 31 : Nat) < 2 ^ 32 ∧
    (init_device_clamp 320 240 (2 ^ 31) 0).1 = 2 ^ 31 ∧
    (init_device_clamp 320 240 (2 ^ 31) 0).2 = 0 := by
  refine ⟨by decide, by decide, by decide, by decide⟩

/-- **C3 (amended).** Whenever the two clamp products do not wrap
32-bit unsigned arithmetic — in particular for every realistic format,
including the forced 320x240 one with any `bytesperline` below
`2^32 / 240` — the negotiated format satisfies
`bytes_per_line ≥ 2 * width` and `total_image_bytes ≥
bytes_per_line * height`, regardless of the values the device
reported. -/
theorem init_device_clamp_invariant :
    ∀ width height bytesperline sizeimage : Nat,
      width * 2 < 2 ^ 32 →
      (init_device_clamp width height bytesperline sizeimage).1 * height < 2 ^ 32 →
      2 * width ≤ (init_device_clamp width height bytesperline sizeimage).1 ∧
      (init_device_clamp width height bytesperline sizeimage).1 * height ≤
        (init_device_clamp width height bytesperline sizeimage).2 := by
  intro width height bytesperline sizeimage h1 h2
  simp only [init_device_clamp] at h2 ⊢
  rw [Nat.mod_eq_of_lt h1] at h2 ⊢
  by_cases hb : bytesperline < width * 2
  · simp only [if_pos hb] at h2 ⊢
    rw [Nat.mod_eq_of_lt h2]
    constructor
    · omega
    · split <;> omega
  · simp only [if_neg hb] at h2 ⊢
    rw [Nat.mod_eq_of_lt h2]
    constructor
    · omega
    · split <;> omega

/-- **C3 witness.** Concrete instantiation: device reports
`bytesperline = 100 < 640` and `sizeimage = 0`; after the clamp the
invariant holds. -/
theorem init_device_clamp_invariant_witness :
    2 * 320 ≤ (init_device_clamp 320 240 100 0).1 ∧
    (init_device_clamp 320 240 100 0).1 * 240 ≤ (init_device_clamp 320 240 100 0).2 :=
  init_device_clamp_invariant 320 240 100 0 (by decide) (by decide)

/-! ## Buffer pool (camera_driver.c, init_mmap, lines 488-561) -/

/-- The device as `init_mmap` consumes it: `VIDIOC_REQBUFS` turns a
requested count into a granted count (`none` = EINVAL, no mmap
support), and `VIDIOC_QUERYBUF` reports each buffer's length. -/
structure DeviceBufModel where
  reqbufs : Nat → Option Nat
  buflen : Nat → Nat

inductive SetupErr
  | MappingUnsupported
  | InsufficientBuffers
deriving DecidableEq

/-- `req.count = 6` on line 494. -/
def requested_buffers : Nat := 6

/-- Every setup failure path calls `exit(EXIT_FAILURE)`. -/
def setup_exit_code : SetupErr → Nat := fun _ => 1

/-- `init_mmap` (lines 488-561): request 6 mmap buffers; EINVAL from
`VIDIOC_REQBUFS` is fatal (`does not support memory mapping`);
`req.count < 2` is fatal (`Insufficient buffer memory`); otherwise the
loop on lines 529-560 queries and maps buffers for
`n_buffers = 0 .. req.count - 1`.  Returns the mapped buffer lengths. -/
def init_mmap (dev : DeviceBufModel) : Except SetupErr (List Nat) :=
  match dev.reqbufs requested_buffers with
  | none => Except.error SetupErr.MappingUnsupported
  | some granted =>
      if granted < 2 then Except.error SetupErr.InsufficientBuffers
      else Except.ok ((List.range granted).map dev.buflen)

/-- **C4.** The pool requests exactly 6 buffers; a grant below 2 is
fatal (`InsufficientBuffers`, nonzero exit); otherwise the number of
mapped buffers equals exactly the granted count. -/
theorem init_mmap_buffer_count :
    ∀ (dev : DeviceBufModel) (granted : Nat),
      dev.reqbufs requested_buffers = some granted →
      requested_buffers = 6 ∧
      (granted < 2 →
        init_mmap dev = Except.error SetupErr.InsufficientBuffers ∧
        setup_exit_code SetupErr.InsufficientBuffers ≠ 0) ∧
      (2 ≤ granted →
        init_mmap dev = Except.ok ((List.range granted).map dev.buflen) ∧
        ((List.range granted).map dev.buflen).length = granted) := by
  intro dev granted h
  refine ⟨rfl, ?_, ?_⟩
  · intro hlt
    constructor
    · simp [init_mmap, h, hlt]
    · simp [setup_exit_code]
  · intro hge
    constructor
    · simp [init_mmap, h]
      omega
    · simp

/-- **C4 witness.** A device granting exactly the 6 requested buffers
yields a pool of 6 mapped buffers. -/
theorem init_mmap_buffer_count_witness :
    init_mmap ⟨fun _ => some 6, fun _ => 0⟩ =
      Except.ok ((List.range 6).map (fun _ => 0)) ∧
    ((List.range 6).map (fun (_ : Nat) => (0 : Nat))).length = 6 :=
  (init_mmap_buffer_count ⟨fun _ => some 6, fun _ => 0⟩ 6 rfl).2.2 (by decide)

/-! ## Pixel write loop (camera_driver.c, dump_ppm, lines 156-162)

```
total = 0;
do {
    written = write(dumpfd, p, size);
    total += written;
} while (total < size);
```
Note the loop passes `p` and `size` unchanged on every retry: a short
write makes the next call append the buffer from its start again. -/

/-- The pixel write loop.  `accept k` is the number of bytes the k-th
`write` call accepts (capped at the requested `size`); the result is
the byte sequence appended to the file, or `none` if `fuel` calls were
not enough to bring `total` up to `size`. -/
def dump_write_loop (accept : Nat → Nat) (p : List Nat) (size : Nat) :
    Nat → Nat → Nat → List Nat → Option (List Nat)
  | 0, _, _, _ => none
  | fuel + 1, k, total, acc =>
      let w := min (accept k) size
      let acc2 := acc ++ p.take w
      if total + w < size then dump_write_loop accept p size fuel (k + 1) (total + w) acc2
      else some acc2

/-- **C7 (code bug).** The retry loop never advances the buffer
pointer: if the first `write` accepts only 3 of 6 bytes and the second
accepts all 6, the loop terminates "successfully" but the file holds
`p[0..2]` followed by `p[0..5]` — 9 bytes with a duplicated prefix,
not the declared 6 frame bytes in order.  (With full writes the
content is correct, third conjunct.) -/
theorem dump_write_loop_short_write_bug :
    dump_write_loop (fun k => if k = 0 then 3 else 6) [10, 20, 30, 40, 50, 60] 6 8 0 0 []
      = some [10, 20, 30, 10, 20, 30, 40, 50, 60] ∧
    ([10, 20, 30, 10, 20, 30, 40, 50, 60] : List Nat) ≠ [10, 20, 30, 40, 50, 60] ∧
    dump_write_loop (fun _ => 6) [10, 20, 30, 40, 50, 60] 6 8 0 0 []
      = some [10, 20, 30, 40, 50, 60] := by
  refine ⟨by decide, by decide, by decide⟩

/-! ## Capture loop theorems -/

/-- **C5.** Transient I/O conditions are never surfaced: an `EINTR`
from `select` just continues the loop, and an `EAGAIN` or `EIO` from
`VIDIOC_DQBUF` makes `read_frame` report "no frame" (return 0) and the
loop proceeds to the next wait cycle — no termination, no error. -/
theorem transient_io_recovered :
    ∀ (rest : List DevEvent) (st : CapState),
      capture_frame (DevEvent.selectIntr :: rest) st = capture_frame rest st ∧
      capture_frame (DevEvent.ready ReadResult.eagain :: rest) st = capture_frame rest st ∧
      capture_frame (DevEvent.ready ReadResult.eio :: rest) st = capture_frame rest st ∧
      read_frame ReadResult.eagain st = (0, st) ∧
      read_frame ReadResult.eio st = (0, st) := by
  intro rest st
  refine ⟨rfl, rfl, rfl, rfl, rfl⟩

/-- A run of `capture_frame` that ends in the 2-second timeout wrote no
file (the loop breaks after the first processed frame, so a timeout can
only hit before any frame) and carries the `select timeout` stderr
diagnostic. -/
theorem capture_frame_timeout_state :
    ∀ (evs : List DevEvent) (st : CapState),
      (capture_frame evs st).1 = Outcome.timedOut →
      (capture_frame evs st).2.files = st.files ∧
      "select timeout" ∈ (capture_frame evs st).2.diag := by
  intro evs
  induction evs with
  | nil => intro st h; exact absurd h (by simp [capture_frame])
  | cons e rest ih =>
      intro st h
      cases e with
      | selectIntr => exact ih st h
      | selectTimeout =>
          refine ⟨rfl, ?_⟩
          simp [capture_frame]
      | ready r =>
          cases r with
          | eagain => exact ih st h
          | eio => exact ih st h
          | frame bytes sec nsec => exact absurd h (by simp [capture_frame, read_frame])

/-- **C6.** If the readiness wait elapses its 2-second timeout, the
session fails fatally: nonzero exit status, a `select timeout`
diagnostic, and no output file produced in that invocation. -/
theorem capture_timeout_fatal :
    ∀ evs : List DevEvent,
      (camera_capture evs).1 = Outcome.timedOut →
      (camera_capture evs).2.files = [] ∧
      "select timeout" ∈ (camera_capture evs).2.diag ∧
      exit_code (camera_capture evs).1 = some 1 ∧
      ∀ n, exit_code (camera_capture evs).1 = some n → n ≠ 0 := by
  intro evs h
  by_cases hc : (capture_frame evs initial_state).1 = Outcome.captured
  · exfalso
    simp only [camera_capture, if_pos hc] at h
    rw [hc] at h
    exact absurd h (by simp)
  · simp only [camera_capture, if_neg hc] at h ⊢
    have hst := capture_frame_timeout_state evs initial_state h
    refine ⟨hst.1, hst.2, by rw [h]; rfl, ?_⟩
    intro n hn
    rw [h] at hn
    simp only [exit_code, Option.some_inj] at hn
    omega

/-- **C6 witness.** A trace that immediately times out: fatal, no
file. -/
theorem capture_timeout_fatal_witness :
    (camera_capture [DevEvent.selectTimeout]).1 = Outcome.timedOut ∧
    (camera_capture [DevEvent.selectTimeout]).2.files = [] ∧
    "select timeout" ∈ (camera_capture [DevEvent.selectTimeout]).2.diag ∧
    exit_code (camera_capture [DevEvent.selectTimeout]).1 = some 1 ∧
    ∀ n, exit_code (camera_capture [DevEvent.selectTimeout]).1 = some n → n ≠ 0 :=
  ⟨rfl, capture_timeout_fatal [DevEvent.selectTimeout] rfl⟩

/-! ## Stop flag (C8) and frame counter (C9) -/

/-- `process_image` neither reads nor writes `is_capture`. -/
theorem process_image_update_flag (bytes : List Nat) (sec nsec : Nat) (st : CapState) (b : Bool) :
    process_image bytes sec nsec { st with is_capture := b } =
      { process_image bytes sec nsec st with is_capture := b } := by
  by_cases h : st.pixfmt = PixFmt.yuyv <;> simp [process_image, h]

/-- The `for (;;)` loop of `capture_frame` never consults `is_capture`:
its behaviour is identical for any value of the flag, and it leaves
the flag untouched. -/
theorem capture_frame_update_flag :
    ∀ (evs : List DevEvent) (st : CapState) (b : Bool),
      capture_frame evs { st with is_capture := b } =
        ((capture_frame evs st).1, { (capture_frame evs st).2 with is_capture := b }) := by
  intro evs
  induction evs with
  | nil => intro st b; rfl
  | cons e rest ih =>
      intro st b
      cases e with
      | selectIntr => exact ih st b
      | selectTimeout => rfl
      | ready r =>
          cases r with
          | eagain => exact ih st b
          | eio => exact ih st b
          | frame bytes sec nsec =>
              show (Outcome.captured, process_image bytes sec nsec { st with is_capture := b }) = _
              rw [process_image_update_flag]
              rfl

/-- **C8 counterexample.** After a termination signal has set the stop
flag (`is_capture = false`), the streaming loop still begins and
completes another iteration: it dequeues, processes and outputs a
frame instead of transitioning out. -/
theorem stop_flag_ignored_cx :
    (signalHandler Signal.sigint initial_state).is_capture = false ∧
    (capture_frame [DevEvent.ready (ReadResult.frame [] 0 0)]
        (signalHandler Signal.sigint initial_state)).1 = Outcome.captured ∧
    (capture_frame [DevEvent.ready (ReadResult.frame [] 0 0)]
        (signalHandler Signal.sigint initial_state)).2.framecnt = 1 ∧
    (capture_frame [DevEvent.ready (ReadResult.frame [] 0 0)]
        (signalHandler Signal.sigint initial_state)).2.files.length = 1 := by
  refine ⟨rfl, rfl, rfl, rfl⟩

/-- **C8 (amended).** The termination signals set the shared stop flag,
but the streaming loop in `capture_frame` never reads it between
iterations: outcome and state are independent of the flag and the loop
leaves it unchanged.  The flag only goes false-after-capture because
`camera_capture` clears it unconditionally once the single-frame loop
returns, before draining and teardown. -/
theorem stop_flag_not_read_by_loop :
    (∀ (evs : List DevEvent) (st : CapState) (b : Bool),
      capture_frame evs { st with is_capture := b } =
        ((capture_frame evs st).1, { (capture_frame evs st).2 with is_capture := b })) ∧
    (∀ (sig : Signal) (st : CapState), (signalHandler sig st).is_capture = false) ∧
    (∀ (evs : List DevEvent) (st : CapState),
      (capture_frame evs st).2.is_capture = st.is_capture) ∧
    (∀ evs : List DevEvent,
      ((camera_capture evs).2.is_capture = false ↔ (camera_capture evs).1 = Outcome.captured)) := by
  have hflag : ∀ (evs : List DevEvent) (st : CapState),
      (capture_frame evs st).2.is_capture = st.is_capture := by
    intro evs st
    have h := capture_frame_update_flag evs st st.is_capture
    calc (capture_frame evs st).2.is_capture
        = (capture_frame evs { st with is_capture := st.is_capture }).2.is_capture := rfl
      _ = st.is_capture := by rw [h]
  refine ⟨capture_frame_update_flag, fun sig st => by cases sig <;> rfl, hflag, ?_⟩
  intro evs
  by_cases hc : (capture_frame evs initial_state).1 = Outcome.captured
  · simp only [camera_capture, if_pos hc]
    simpa using hc
  · simp only [camera_capture, if_neg hc]
    have := hflag evs initial_state
    constructor
    · intro hfalse
      rw [this] at hfalse
      exact absurd hfalse (by simp [initial_state])
    · intro h
      exact absurd h hc

/-- **C9 counterexample.** A frame whose pixel encoding is not YUYV
produces no output file, yet `framecnt` is still incremented (the
increment on line 243 precedes the format check on line 246). -/
theorem framecnt_unrecognized_format_cx :
    (process_image [] 0 0 ⟨PixFmt.other, 0, [], true, []⟩).framecnt = 1 ∧
    (process_image [] 0 0 ⟨PixFmt.other, 0, [], true, []⟩).files = [] :=
  ⟨rfl, rfl⟩

/-- **C9 (amended).** `framecnt` is incremented exactly once per frame
handed to `process_image` — including frames with an unrecognized
encoding, which produce no output — so it increases monotonically with
every processed buffer, and for recognized YUYV frames the
post-increment value is the number used to name the output file. -/
theorem framecnt_increment_per_frame :
    ∀ (bytes : List Nat) (sec nsec : Nat) (st : CapState),
      (process_image bytes sec nsec st).framecnt = st.framecnt + 1 ∧
      st.framecnt < (process_image bytes sec nsec st).framecnt ∧
      (process_image bytes sec nsec st).files =
        st.files ++
          (if st.pixfmt = PixFmt.yuyv then
            [{ name := ppm_dumpname (st.framecnt + 1),
               content := strBytes (ppm_header sec (nsec / 1000000)) ++
                 (yuyvLoop bytes).take (bytes.length * 6 / 4) }]
          else []) := by
  intro bytes sec nsec st
  by_cases h : st.pixfmt = PixFmt.yuyv <;> simp [process_image, h]

/-! ## Scratch buffer bounds (C10) -/

/-- `unsigned char bigbuffer[(1280 * 960)]` (line 219). -/
def bigbuffer_size : Nat := 1280 * 960

/-- Number of iterations of `for (i = 0; i < size; i += 4)`:
`⌈size / 4⌉`.  Iteration `k` writes `bigbuffer[6k .. 6k+5]`. -/
def loop_iterations (size : Nat) : Nat := (size + 3) / 4

/-- **C10.** For any frame of at most 819200 bytes (= 1280*960*4/6),
every iteration of the conversion loop writes only indices below the
1280*960-byte `bigbuffer`; equivalently, the conversion output fits in
the scratch buffer.  The negotiated 320x240 frame size 153600
satisfies the bound. -/
theorem conversion_stays_in_bigbuffer :
    (∀ size k : Nat, size ≤ 819200 → k < loop_iterations size →
      6 * k + 5 < bigbuffer_size) ∧
    (∀ bytes : List Nat, bytes.length ≤ 819200 →
      (yuyvLoop bytes).length ≤ bigbuffer_size) ∧
    bigbuffer_size * 4 / 6 = 819200 ∧ (153600 : Nat) ≤ 819200 := by
  refine ⟨?_, ?_, by decide, by decide⟩
  · intro size k h1 h2
    simp only [loop_iterations] at h2
    simp only [bigbuffer_size]
    omega
  · intro bytes h
    rw [yuyvLoop_length]
    simp only [bigbuffer_size]
    omega

/-- **C10 witness.** The last iteration for a 153600-byte frame
(k = 38399) still writes inside `bigbuffer`, and the conversion output
of a frame fits. -/
theorem conversion_stays_in_bigbuffer_witness :
    6 * 38399 + 5 < bigbuffer_size ∧ (yuyvLoop []).length ≤ bigbuffer_size :=
  ⟨conversion_stays_in_bigbuffer.1 153600 38399 (by decide) (by decide),
   conversion_stays_in_bigbuffer.2.1 [] (by decide)⟩

/-! ## End-to-end single frame capture (C2) -/

/-- Transparent iterations (EINTR, EAGAIN, EIO) leave the run of
`capture_frame` unchanged. -/
theorem capture_frame_skips_transient :
    ∀ (pre : List DevEvent) (st : CapState),
      (∀ e ∈ pre, e = DevEvent.selectIntr ∨ e = DevEvent.ready ReadResult.eagain ∨
        e = DevEvent.ready ReadResult.eio) →
      ∀ evs, capture_frame (pre ++ evs) st = capture_frame evs st := by
  intro pre
  induction pre with
  | nil => intro st _ evs; rfl
  | cons e rest ih =>
      intro st hp evs
      have he := hp e (by simp)
      have hr : ∀ e' ∈ rest, e' = DevEvent.selectIntr ∨
          e' = DevEvent.ready ReadResult.eagain ∨ e' = DevEvent.ready ReadResult.eio :=
        fun e' h' => hp e' (by simp [h'])
      rcases he with h | h | h <;> subst h <;> exact ih st hr evs

/-- **C2.** A capture session whose trace consists of transparent
iterations followed by one successfully dequeued filled 320x240
YUYV422 buffer (153600 bytes) produces exactly one output file, named
`frames/test00000001.ppm`, whose content is the ASCII header
`P6\n#<10-digit sec> sec <10-digit msec> msec \n320 240\n255\n`
followed immediately by exactly 230400 = 153600*6/4 = 320*240*3 bytes
of RGB24 pixel data. -/
theorem single_frame_ppm_output :
    ∀ (pre : List DevEvent) (bytes : List Nat) (sec nsec : Nat),
      (∀ e ∈ pre, e = DevEvent.selectIntr ∨ e = DevEvent.ready ReadResult.eagain ∨
        e = DevEvent.ready ReadResult.eio) →
      bytes.length = 153600 → sec < 2 ^ 31 → nsec < 10 ^ 9 →
      camera_capture (pre ++ [DevEvent.ready (ReadResult.frame bytes sec nsec)]) =
        (Outcome.captured,
          { pixfmt := PixFmt.yuyv, framecnt := 1,
            files := [{ name := "frames/test00000001.ppm",
                        content := strBytes (ppm_header sec (nsec / 1000000)) ++
                          yuyvLoop bytes }],
            is_capture := false, diag := [] }) ∧
      ppm_dumpname 1 = "frames/test00000001.ppm" ∧
      (yuyvLoop bytes).length = 230400 ∧
      (strBytes (ppm_header sec (nsec / 1000000))).length = 48 ∧
      (pad0 10 sec).length = 10 ∧ (pad0 10 (nsec / 1000000)).length = 10 ∧
      153600 * 6 / 4 = 230400 ∧ 320 * 240 * 3 = 230400 := by
  intro pre bytes sec nsec hpre hlen hsec hnsec
  have hlen6 : (yuyvLoop bytes).length = 230400 := by
    rw [yuyvLoop_length, hlen]
  have htake : (yuyvLoop bytes).take (bytes.length * 6 / 4) = yuyvLoop bytes := by
    rw [hlen]
    show (yuyvLoop bytes).take 230400 = yuyvLoop bytes
    rw [← hlen6]
    exact List.take_length (yuyvLoop bytes)
  have hname : ppm_dumpname 1 = "frames/test00000001.ppm" := by decide
  have hstate : process_image bytes sec nsec initial_state =
      { pixfmt := PixFmt.yuyv, framecnt := 1,
        files := [{ name := "frames/test00000001.ppm",
                    content := strBytes (ppm_header sec (nsec / 1000000)) ++ yuyvLoop bytes }],
        is_capture := true, diag := [] } := by
    simp [process_image, initial_state, htake, hname]
  have hloop : capture_frame (pre ++ [DevEvent.ready (ReadResult.frame bytes sec nsec)])
      initial_state = (Outcome.captured, process_image bytes sec nsec initial_state) := by
    rw [capture_frame_skips_transient pre initial_state hpre]
    rfl
  refine ⟨?_, hname, hlen6, ?_, pad0_length 10 sec, pad0_length 10 (nsec / 1000000),
    by decide, by decide⟩
  · simp only [camera_capture, hloop, hstate]
    rfl
  · simp [strBytes, ppm_header, pad0_length]

/-- **C2 witness.** Concrete session: no transient iterations, one
filled 153600-byte buffer, timestamp 5 s / 999 ns. -/
theorem single_frame_ppm_output_witness :
    (yuyvLoop (List.replicate 153600 0)).length = 230400 ∧
    ppm_dumpname 1 = "frames/test00000001.ppm" :=
  ⟨(single_frame_ppm_output [] (List.replicate 153600 0) 5 999
      (by simp) (List.length_replicate 153600 0) (by decide) (by decide)).2.2.1,
   (single_frame_ppm_output [] (List.replicate 153600 0) 5 999
      (by simp) (List.length_replicate 153600 0) (by decide) (by decide)).2.1⟩
